import Mathlib

/-!
Shallow embedding of the UTM/GRS80 projection library (src/utm/conversion.pyx).

Rationals stand in for the Python doubles on the validation and
zone-selection paths, which use only comparisons, truncation and exact
arithmetic; the transcendental projection cores are embedded over the
reals with Real.sin, Real.cos, Real.tan and Real.sqrt.
-/

namespace UtmConv

/-- Python's built-in `int()` applied to a rational: truncation toward zero. -/
def pyInt (q : ℚ) : ℤ := if 0 ≤ q then ⌊q⌋ else -⌊-q⌋

/-- Modelled from the spec: the error kinds of the library.  `OutOfRangeError`
is imported from `utm.error`, a module not present under src/; the spec (§6, §7)
describes it as an error kind distinguishable from the generic invalid-argument
(`ValueError`) failures, which is all the embedding needs. -/
inductive UtmError where
  | valueError : String → UtmError
  | outOfRangeError : String → UtmError

/-- Letter band table, `ZONE_LETTERS = "CDEFGHJKLMNPQRSTUVWXX"`. -/
def ZONE_LETTERS : String := "CDEFGHJKLMNPQRSTUVWXX"

/-- Embeds `latitude_to_zone_letter`.  Python's `ZONE_LETTERS[i]` is modelled
with `List.get?`; for every latitude in the `if` branch the index is at most 20,
so the lookup never misses (Python would raise `IndexError` only outside that
range).  Python's `>> 3` on the nonnegative truncated integer is `Nat` shift. -/
def latitude_to_zone_letter (latitude : ℚ) : Option Char :=
  if -80 ≤ latitude ∧ latitude ≤ 84 then
    ZONE_LETTERS.toList.get? ((pyInt (latitude + 80)).toNat >>> 3)
  else
    none

/-- Embeds `latlon_to_zone_number`, with the Norway and Svalbard special bands
and the generic `int((longitude + 180) / 6) + 1` formula. -/
def latlon_to_zone_number (latitude longitude : ℚ) : ℤ :=
  if 56 ≤ latitude ∧ latitude < 64 ∧ 3 ≤ longitude ∧ longitude < 12 then 32
  else if 72 ≤ latitude ∧ latitude ≤ 84 ∧ 0 ≤ longitude then
    if longitude ≤ 9 then 31
    else if longitude ≤ 21 then 33
    else if longitude ≤ 33 then 35
    else if longitude ≤ 42 then 37
    else pyInt ((longitude + 180) / 6) + 1
  else pyInt ((longitude + 180) / 6) + 1

/-- Embeds `zone_number_to_central_longitude`. -/
def zone_number_to_central_longitude (zone_number : ℤ) : ℤ :=
  (zone_number - 1) * 6 - 180 + 3

/-- Discriminates results carrying an `OutOfRangeError`. -/
def isOutOfRange {α : Type} : Except UtmError α → Bool
  | Except.error (UtmError.outOfRangeError _) => true
  | _ => false

/-- Discriminates results carrying a generic `ValueError` (the
invalid-argument-combination failure, distinct from `OutOfRangeError`). -/
def isValueError {α : Type} : Except UtmError α → Bool
  | Except.error (UtmError.valueError _) => true
  | _ => false

/-- Discriminates successful results. -/
def isOk {α : Type} : Except UtmError α → Bool
  | Except.ok _ => true
  | _ => false

/-- Projects the zone-number component out of a successful `from_latlon` result. -/
def resultZone : Except UtmError (ℝ × ℝ × ℤ × Option Char) → Option ℤ
  | Except.ok (_, _, z, _) => some z
  | Except.error _ => none

noncomputable section

/-- Scale factor `K0 = 0.9996`. -/
def K0 : ℝ := 0.9996

/-- Equatorial radius of the GRS80 ellipsoid, `R = 6378137.0`. -/
def R : ℝ := 6378137.0

/-- Flattening of the GRS80 ellipsoid, `F = 1 / 298.257222101`. -/
def F : ℝ := 1.0 / 298.257222101

/-- First numerical eccentricity squared, `E = (2 - F) * F`. -/
def E : ℝ := (2.0 - F) * F

/-- Power `E ** 2`. -/
def E2 : ℝ := E ^ 2

/-- Power `E ** 3`. -/
def E3 : ℝ := E ^ 3

/-- Power `E ** 4`. -/
def E4 : ℝ := E ^ 4

/-- Power `E ** 5`. -/
def E5 : ℝ := E ^ 5

/-- Second numerical eccentricity squared, `E_P2 = E / (1 - E)`. -/
def E_P2 : ℝ := E / (1.0 - E)

/-- Third flattening, `_E = F / (2 - F)`. -/
def _E : ℝ := F / (2.0 - F)

/-- Power `_E ** 2`. -/
def _E2 : ℝ := _E ^ 2

/-- Power `_E ** 3`. -/
def _E3 : ℝ := _E ^ 3

/-- Power `_E ** 4`. -/
def _E4 : ℝ := _E ^ 4

/-- Power `_E ** 5`. -/
def _E5 : ℝ := _E ^ 5

/-- Meridian-distance series coefficient M1. -/
def M1 : ℝ := (1 - E / 4 - 3 * E2 / 64 - 5 * E3 / 256 - 175 * E4 / 16384 - 441 * E5 / 65536)

/-- Meridian-distance series coefficient M2. -/
def M2 : ℝ := 3 / 8 * (E + E2 / 4 + 15 * E3 / 128 + 35 * E4 / 512 + 735 * E5 / 16384)

/-- Meridian-distance series coefficient M3. -/
def M3 : ℝ := 15 / 256 * (E2 + 3 * E3 / 4 + 35 * E4 / 64 + 105 * E5 / 256)

/-- Meridian-distance series coefficient M4. -/
def M4 : ℝ := 35 / 3072 * (E3 + 5 * E4 / 4 + 315 * E5 / 256)

/-- Meridian-distance series coefficient M5. -/
def M5 : ℝ := 315 / 131072 * (E4 + 7 * E5 / 4)

/-- Meridian-distance series coefficient M6. -/
def M6 : ℝ := 693 / 1310720 * E5

/-- Latitude-from-meridian-distance series coefficient P2. -/
def P2 : ℝ := (3 / 2 * _E - 27 / 32 * _E3 + 269 / 512 * _E5)

/-- Latitude-from-meridian-distance series coefficient P3. -/
def P3 : ℝ := (21 / 16 * _E2 - 55 / 32 * _E4)

/-- Latitude-from-meridian-distance series coefficient P4. -/
def P4 : ℝ := (151 / 96 * _E3 - 417 / 128 * _E5)

/-- Latitude-from-meridian-distance series coefficient P5. -/
def P5 : ℝ := (1097 / 512 * _E4)

/-- Latitude-from-meridian-distance series coefficient P6. -/
def P6 : ℝ := (8011 / 2560 * _E5)

/-- Conversion factor `rad2deg = 180 / pi`. -/
def rad2deg : ℝ := 180 / Real.pi

/-- Conversion factor `deg2rad = pi / 180`. -/
def deg2rad : ℝ := Real.pi / 180

/-- Numeric core of `to_latlon` (conversion.pyx lines 112-166): everything after
the validation checks, with the hemisphere already resolved to the boolean
`northern`.  Returns the pair (latitude, longitude) in degrees. -/
def to_latlon_core (easting northing : ℚ) (zone_number : ℤ) (northern : Bool) : ℝ × ℝ :=
  let x : ℝ := (easting : ℝ) - 500000
  let y : ℝ := if northern then (northing : ℝ) else (northing : ℝ) - 10000000
  let m : ℝ := y / K0
  let mu : ℝ := m / (R * M1)
  let p_rad : ℝ := (mu +
           P2 * Real.sin (2 * mu) +
           P3 * Real.sin (4 * mu) +
           P4 * Real.sin (6 * mu) +
           P5 * Real.sin (8 * mu) +
           P6 * Real.sin (10 * mu))
  let p_sin2 : ℝ := Real.sin p_rad ^ 2
  let p_cos : ℝ := Real.cos p_rad
  let p_tan : ℝ := Real.tan p_rad
  let p_tan2 : ℝ := p_tan ^ 2
  let p_tan4 : ℝ := p_tan ^ 4
  let p_tan6 : ℝ := p_tan ^ 6
  let n : ℝ := R / Real.sqrt (1 - E * p_sin2)
  let r : ℝ := (1 - E) / (1 - E * p_sin2)
  let c : ℝ := _E * p_cos ^ 2
  let c2 : ℝ := c ^ 2
  let c3 : ℝ := c ^ 3
  let c4 : ℝ := c ^ 4
  let d : ℝ := x / (n * K0)
  let latitude : ℝ := (p_rad - (p_tan / r) *
              (d ^ 2 / 2 -
               d ^ 4 / 24 * (5 + 3 * p_tan2 + c - 4 * c2 - 9 * p_tan2 * c) +
               d ^ 6 / 720 * (61 + 90 * p_tan2 + 45 * p_tan4 + 46 * c - 3 * c2 + 100 * c3 + 88 * c4 - 252 * p_tan2 * c - 66 * p_tan2 * c2 + 84 * p_tan4 * c3 - 192 * p_tan2 * c4 - 90 * p_tan4 * c + 225 * p_tan4 * c2) -
               d ^ 8 / 40320 * (1385 + 3633 * p_tan2 + 4095 * p_tan4 + 1575 * p_tan6)))
  let longitude : ℝ := (d -
               d ^ 3 / 6 * (1 + 2 * p_tan2 + c) +
               d ^ 5 / 120 * (5 + 28 * p_tan2 + 24 * p_tan4 + 6 * c - 3 * c2 - 4 * c3 + 8 * p_tan2 * c + 4 * p_tan2 * c2 + 24 * p_tan2 * c3) -
               d ^ 7 / 5040 * (61 + 662 * p_tan2 + 1320 * p_tan4 + 720 * p_tan6)) / p_cos
  (rad2deg * latitude,
   rad2deg * longitude + (zone_number_to_central_longitude zone_number : ℝ))

/-- Embeds `to_latlon`.  The validation checks are translated in source order;
Python's truthiness of the `zone_letter` string argument coincides with
`Option.isSome` here because a supplied letter is a single (nonempty)
character.  In the `none` letter branch the combination checks guarantee
`northern` is `some`, so `Option.getD false` never sees its default. -/
def to_latlon (easting northing : ℚ) (zone_number : ℤ) (zone_letter : Option Char)
    (northern : Option Bool) (strict : Bool) : Except UtmError (ℝ × ℝ) :=
  if zone_letter = none ∧ northern = none then
    Except.error (UtmError.valueError "either zone_letter or northern needs to be set")
  else if zone_letter ≠ none ∧ northern ≠ none then
    Except.error (UtmError.valueError "set either zone_letter or northern, but not both")
  else if strict = true ∧ ¬(100000 ≤ easting ∧ easting < 1000000) then
    Except.error (UtmError.outOfRangeError "easting out of range (must be between 100.000 m and 999.999 m)")
  else if strict = true ∧ ¬(0 ≤ northing ∧ northing ≤ 10000000) then
    Except.error (UtmError.outOfRangeError "northing out of range (must be between 0 m and 10.000.000 m)")
  else if ¬(1 ≤ zone_number ∧ zone_number ≤ 60) then
    Except.error (UtmError.outOfRangeError "zone number out of range (must be between 1 and 60)")
  else
    match zone_letter with
    | some letter =>
        if ¬('C' ≤ letter.toUpper ∧ letter.toUpper ≤ 'X') ∨ letter.toUpper = 'I' ∨ letter.toUpper = 'O' then
          Except.error (UtmError.outOfRangeError "zone letter out of range (must be between C and X)")
        else
          Except.ok (to_latlon_core easting northing zone_number (decide ('N' ≤ letter.toUpper)))
    | none =>
        Except.ok (to_latlon_core easting northing zone_number (northern.getD false))

/-- Numeric core of `from_latlon` (conversion.pyx lines 203-253): the series
evaluation after validation and zone selection.  Returns (easting, northing)
including the southern-hemisphere false northing. -/
def from_latlon_core (latitude longitude : ℚ) (zone_number : ℤ) : ℝ × ℝ :=
  let lon_rad : ℝ := deg2rad * (longitude : ℝ)
  let central_lon : ℝ := (zone_number_to_central_longitude zone_number : ℝ)
  let central_lon_rad : ℝ := deg2rad * central_lon
  let lat_rad : ℝ := deg2rad * (latitude : ℝ)
  let lat_tan : ℝ := Real.tan lat_rad
  let lat_tan2 : ℝ := lat_tan ^ 2
  let lat_tan4 : ℝ := lat_tan ^ 4
  let lat_tan6 : ℝ := lat_tan ^ 6
  let n : ℝ := R / Real.sqrt (1 - E * Real.sin lat_rad ^ 2)
  let c : ℝ := E_P2 * Real.cos lat_rad ^ 2
  let c2 : ℝ := c ^ 2
  let c3 : ℝ := c ^ 3
  let c4 : ℝ := c ^ 4
  let a : ℝ := Real.cos lat_rad * (lon_rad - central_lon_rad)
  let m : ℝ := R * (M1 * lat_rad -
                    M2 * Real.sin (2 * lat_rad) +
                    M3 * Real.sin (4 * lat_rad) -
                    M4 * Real.sin (6 * lat_rad) +
                    M5 * Real.sin (8 * lat_rad) -
                    M6 * Real.sin (10 * lat_rad))
  let easting : ℝ := K0 * n * (
                      a +
                      a ^ 3 / 6 * (1 - lat_tan2 + c) +
                      a ^ 5 / 120 * (5 - 18 * lat_tan2 + lat_tan4 + 14 * c + 13 * c2 + 4 * c3 - 58 * c * lat_tan2 - 64 * c2 * lat_tan2 - 24 * lat_tan2 * c3) +
                      a ^ 7 / 5040 * (61 - 479 * lat_tan2 + 179 * lat_tan4 - lat_tan6)
                      ) + 500000
  let northing : ℝ := K0 * (m + n * lat_tan * (
                                      a ^ 2 / 2 +
                                      a ^ 4 / 24 * (5 - lat_tan2 + 9 * c + 4 * c2) +
                                      a ^ 6 / 720 * (61 - 58 * lat_tan2 + lat_tan4 + 270 * c + 445 * c2 + 324 * c3 + 88 * c4 - 330 * c * lat_tan2 - 680 * lat_tan2 * c2 - 600 * lat_tan2 * c3 - 192 * lat_tan2 * c4) +
                                      a ^ 8 / 40320 * (1385 - 3111 * lat_tan2 + 543 * lat_tan4 - lat_tan6)
                                      ))
  (easting, if latitude < 0 then northing + 10000000 else northing)

/-- Embeds `from_latlon`: validation (under `strict`), zone-number selection
(forced or computed), zone-letter lookup, then the projection core.  The
source's bounds `-80.0`, `84.0`, `-180.0`, `180.0` are these exact integer
values as rationals. -/
def from_latlon (latitude longitude : ℚ) (force_zone_number : Option ℤ)
    (strict : Bool) : Except UtmError (ℝ × ℝ × ℤ × Option Char) :=
  if strict = true ∧ ¬(-80 ≤ latitude ∧ latitude ≤ 84) then
    Except.error (UtmError.outOfRangeError "latitude out of range (must be between 80 deg S and 84 deg N)")
  else if strict = true ∧ ¬(-180 ≤ longitude ∧ longitude ≤ 180) then
    Except.error (UtmError.outOfRangeError "longitude out of range (must be between 180 deg W and 180 deg E)")
  else
    let zone_number : ℤ :=
      match force_zone_number with
      | some z => z
      | none => latlon_to_zone_number latitude longitude
    let zone_letter : Option Char := latitude_to_zone_letter latitude
    Except.ok ((from_latlon_core latitude longitude zone_number).1,
               (from_latlon_core latitude longitude zone_number).2,
               zone_number, zone_letter)

end

/-- Bounds for the generic zone formula `int((longitude + 180) / 6) + 1` on
longitudes in `[-180, 180)`. -/
theorem generic_zone_bounds (lon : ℚ) (h3 : -180 ≤ lon) (h4 : lon < 180) :
    1 ≤ pyInt ((lon + 180) / 6) + 1 ∧ pyInt ((lon + 180) / 6) + 1 ≤ 60 := by
  have h0 : (0 : ℚ) ≤ (lon + 180) / 6 := by
    apply div_nonneg _ (by norm_num)
    linarith
  have hlt : (lon + 180) / 6 < 60 := by
    rw [div_lt_iff₀ (by norm_num : (0:ℚ) < 6)]
    linarith
  rw [pyInt, if_pos h0]
  constructor
  · have hf : 0 ≤ ⌊(lon + 180) / 6⌋ := Int.floor_nonneg.mpr h0
    omega
  · have hf : ⌊(lon + 180) / 6⌋ < 60 := by
      rw [Int.floor_lt]
      exact_mod_cast hlt
    omega

/-- C2 (amended): for every latitude in [-80, 84] and longitude in [-180, 180)
the zone number computed by `latlon_to_zone_number` — which is also the
zone-number component returned by `from_latlon` without a forced zone —
lies in [1, 60].  (At longitude exactly 180 the generic formula yields 61,
see the counterexample.) -/
theorem C2_zone_number_range (lat lon : ℚ) (h1 : -80 ≤ lat) (h2 : lat ≤ 84)
    (h3 : -180 ≤ lon) (h4 : lon < 180) :
    (1 ≤ latlon_to_zone_number lat lon ∧ latlon_to_zone_number lat lon ≤ 60)
    ∧ resultZone (from_latlon lat lon none true) = some (latlon_to_zone_number lat lon) := by
  constructor
  · unfold latlon_to_zone_number
    split_ifs <;> first | exact generic_zone_bounds lon h3 h4 | norm_num
  · unfold from_latlon
    rw [if_neg (by push_neg; exact fun _ => ⟨h1, h2⟩),
        if_neg (by push_neg; exact fun _ => ⟨h3, le_of_lt h4⟩)]
    rfl

/-- C2 witness: the amended theorem applied at (10, 10). -/
theorem C2_zone_number_range_witness :
    ((1 ≤ latlon_to_zone_number 10 10 ∧ latlon_to_zone_number 10 10 ≤ 60)
     ∧ resultZone (from_latlon 10 10 none true) = some (latlon_to_zone_number 10 10)) :=
  C2_zone_number_range 10 10 (by norm_num) (by norm_num) (by norm_num) (by norm_num)

/-- C2 counterexample: latitude 10 and longitude 180 lie in the claim's domain
([-80, 84] × [-180, 180]), yet `latlon_to_zone_number` returns 61, outside
[1, 60]. -/
theorem C2_counterexample :
    ((-80 : ℚ) ≤ 10 ∧ (10 : ℚ) ≤ 84 ∧ (-180 : ℚ) ≤ 180 ∧ (180 : ℚ) ≤ 180)
    ∧ ¬(latlon_to_zone_number 10 180 ≤ 60) := by
  constructor
  · norm_num
  · norm_num [latlon_to_zone_number, pyInt]

/-- C3 (amended): (10, 10) falls under no special band, so
`latlon_to_zone_number` returns the generic formula result
`int((10 + 180) / 6) + 1`, which is 32 (not 41 as the spec states). -/
theorem C3_zone_number_at_10_10 :
    latlon_to_zone_number 10 10 = pyInt (((10 : ℚ) + 180) / 6) + 1
    ∧ latlon_to_zone_number 10 10 = 32 := by
  constructor <;> norm_num [latlon_to_zone_number, pyInt]

/-- C3 counterexample: `latlon_to_zone_number(10.0, 10.0)` is not 41. -/
theorem C3_counterexample : latlon_to_zone_number 10 10 ≠ 41 := by
  norm_num [latlon_to_zone_number, pyInt]

/-- C8: for latitudes in [-80, 84], `latitude_to_zone_letter` returns the
character of ZONE_LETTERS at index `(latitude + 80) div 8` — in particular
'X' at 84 — and outside [-80, 84] it returns none, in particular at 85. -/
theorem C8_latitude_to_zone_letter_spec :
    (∀ lat : ℚ, -80 ≤ lat → lat ≤ 84 →
       latitude_to_zone_letter lat = ZONE_LETTERS.toList.get? (⌊(lat + 80) / 8⌋).toNat)
    ∧ latitude_to_zone_letter 84 = some 'X'
    ∧ (∀ lat : ℚ, ¬(-80 ≤ lat ∧ lat ≤ 84) → latitude_to_zone_letter lat = none)
    ∧ latitude_to_zone_letter 85 = none := by
  refine ⟨?_, ?_, ?_, ?_⟩
  · intro lat h1 h2
    have hq : (0 : ℚ) ≤ lat + 80 := by linarith
    unfold latitude_to_zone_letter
    rw [if_pos ⟨h1, h2⟩]
    congr 1
    rw [pyInt, if_pos hq, Nat.shiftRight_eq_div_pow]
    calc ⌊lat + 80⌋.toNat / 2 ^ 3
        = ⌊lat + 80⌋₊ / 8 := by rw [Int.floor_toNat]; norm_num
      _ = ⌊(lat + 80) / ((8 : ℕ) : ℚ)⌋₊ := (Nat.floor_div_nat (lat + 80) 8).symm
      _ = ⌊(lat + 80) / 8⌋.toNat := by rw [Int.floor_toNat]; norm_num
  · norm_num [latitude_to_zone_letter, pyInt]
    decide
  · intro lat h
    unfold latitude_to_zone_letter
    rw [if_neg h]
  · norm_num [latitude_to_zone_letter]

/-- C8 witness: the first part of the theorem applied at latitude 0. -/
theorem C8_latitude_to_zone_letter_witness :
    latitude_to_zone_letter 0 = ZONE_LETTERS.toList.get? (⌊((0 : ℚ) + 80) / 8⌋).toNat :=
  C8_latitude_to_zone_letter_spec.1 0 (by norm_num) (by norm_num)

/-- C4 (amended): with strict true, a zone number in [1, 60] and a hemisphere
flag supplied, `to_latlon` returns an `OutOfRangeError` exactly when easting is
outside [100000, 1000000) or northing is outside [0, 10000000].  (The source
accepts every easting strictly below 1000000, not only up to 999999; see the
counterexample.) -/
theorem C4_strict_easting_northing (e n : ℚ) (z : ℤ) (b : Bool)
    (hz : 1 ≤ z ∧ z ≤ 60) :
    isOutOfRange (to_latlon e n z none (some b) true) = true
    ↔ (¬(100000 ≤ e ∧ e < 1000000) ∨ ¬(0 ≤ n ∧ n ≤ 10000000)) := by
  unfold to_latlon
  by_cases he : 100000 ≤ e ∧ e < 1000000 <;>
    by_cases hn : 0 ≤ n ∧ n ≤ 10000000 <;>
      simp [isOutOfRange, he, hn, hz.1, hz.2]

/-- C4 witness: the amended theorem applied at easting 50 (below range). -/
theorem C4_strict_easting_northing_witness :
    isOutOfRange (to_latlon 50 0 32 none (some true) true) = true :=
  (C4_strict_easting_northing 50 0 32 true (by norm_num)).mpr (Or.inl (by norm_num))

/-- C4 counterexample: easting 999999.5 lies outside [100000, 999999], yet with
strict true `to_latlon` raises no `OutOfRangeError` (the source only requires
easting < 1000000). -/
theorem C4_counterexample :
    ¬((999999.5 : ℚ) ≤ 999999)
    ∧ isOutOfRange (to_latlon 999999.5 5000000 32 none (some true) true) = false := by
  constructor
  · norm_num
  · unfold to_latlon
    norm_num [isOutOfRange]
    rfl

/-- C5: `from_latlon(85, 0, strict := true)` fails with `OutOfRangeError`; with
strict true any latitude outside [-80, 84] or longitude outside [-180, 180]
fails with `OutOfRangeError`; and `from_latlon(85, 0, strict := false)` raises
nothing and returns a numeric result. -/
theorem C5_strict_domain_validation :
    isOutOfRange (from_latlon 85 0 none true) = true
    ∧ (∀ (lat lon : ℚ) (fz : Option ℤ),
         ¬(-80 ≤ lat ∧ lat ≤ 84) ∨ ¬(-180 ≤ lon ∧ lon ≤ 180) →
         isOutOfRange (from_latlon lat lon fz true) = true)
    ∧ isOk (from_latlon 85 0 none false) = true := by
  refine ⟨?_, ?_, ?_⟩
  · norm_num [from_latlon, isOutOfRange]
  · intro lat lon fz h
    unfold from_latlon
    by_cases hlat : -80 ≤ lat ∧ lat ≤ 84
    · rcases h with h | h
      · exact absurd hlat h
      · rw [if_neg (by push_neg; exact fun _ => hlat), if_pos ⟨rfl, h⟩]
        rfl
    · rw [if_pos ⟨rfl, hlat⟩]
      rfl
  · norm_num [from_latlon, isOk]

/-- C5 witness: the universally quantified part applied at longitude 200. -/
theorem C5_strict_domain_validation_witness :
    isOutOfRange (from_latlon 0 200 none true) = true :=
  C5_strict_domain_validation.2.1 0 200 none (Or.inr (by norm_num))

/-- C6: `to_latlon` fails with a `ValueError` — the invalid-argument-combination
failure, distinct from `OutOfRangeError` — exactly when both or neither of
zone_letter and northern are supplied. -/
theorem C6_argument_combination (e n : ℚ) (z : ℤ) (zl : Option Char)
    (no : Option Bool) (s : Bool) :
    isValueError (to_latlon e n z zl no s) = true
    ↔ ((zl = none ∧ no = none) ∨ (zl ≠ none ∧ no ≠ none)) := by
  unfold to_latlon
  rcases zl with _ | L <;> rcases no with _ | b <;>
    simp [isValueError] <;> split_ifs <;> simp [isValueError]

/-- C6 witness: supplying neither argument at (500000, 5000000, 32) fails with
the invalid-argument-combination error. -/
theorem C6_argument_combination_witness :
    isValueError (to_latlon 500000 5000000 32 none none true) = true :=
  (C6_argument_combination 500000 5000000 32 none none true).mpr
    (Or.inl ⟨rfl, rfl⟩)

/-- C7: zone_number and zone_letter validity are checked regardless of strict:
with exactly one of zone_letter and northern supplied, a zone number outside
[1, 60] always yields an `OutOfRangeError`, and a supplied zone letter whose
uppercase form is outside [C, X] or is I or O always yields an
`OutOfRangeError`, for any strict flag. -/
theorem C7_zone_checks_ignore_strict (e n : ℚ) (z : ℤ) (s : Bool) :
    (∀ (zl : Option Char) (no : Option Bool), zl.isSome ≠ no.isSome →
       ¬(1 ≤ z ∧ z ≤ 60) → isOutOfRange (to_latlon e n z zl no s) = true)
    ∧ (∀ L : Char,
         ¬('C' ≤ L.toUpper ∧ L.toUpper ≤ 'X') ∨ L.toUpper = 'I' ∨ L.toUpper = 'O' →
         isOutOfRange (to_latlon e n z (some L) none s) = true) := by
  constructor
  · intro zl no hxor hz
    unfold to_latlon
    rcases zl with _ | L <;> rcases no with _ | b
    · simp at hxor
    · split_ifs <;> simp_all [isOutOfRange]
    · split_ifs <;> simp_all [isOutOfRange]
    · simp at hxor
  · intro L hL
    unfold to_latlon
    split_ifs <;> simp_all [isOutOfRange]

/-- C7 witness: the first part applied with zone number 0 and strict false. -/
theorem C7_zone_checks_ignore_strict_witness :
    isOutOfRange (to_latlon 500000 5000000 0 none (some true) false) = true :=
  (C7_zone_checks_ignore_strict 500000 5000000 0 false).1 none (some true)
    (by simp) (by norm_num)

/-- C9: for a valid zone letter (uppercase or lowercase), `to_latlon` returns
exactly the same result as `to_latlon` called with the hemisphere flag
`northern = (uppercase letter >= 'N')` instead. -/
theorem C9_letter_equals_hemisphere (e n : ℚ) (z : ℤ) (s : Bool) (L : Char)
    (h1 : 'C' ≤ L.toUpper) (h2 : L.toUpper ≤ 'X')
    (h3 : L.toUpper ≠ 'I') (h4 : L.toUpper ≠ 'O') :
    to_latlon e n z (some L) none s
    = to_latlon e n z none (some (decide ('N' ≤ L.toUpper))) s := by
  have hc : ¬(¬('C' ≤ L.toUpper ∧ L.toUpper ≤ 'X') ∨ L.toUpper = 'I' ∨ L.toUpper = 'O') := by
    push_neg
    exact ⟨⟨h1, h2⟩, h3, h4⟩
  unfold to_latlon
  simp only [hc, if_false, Option.some_ne_none, Option.getD_some, ne_eq,
    not_false_eq_true, and_false, false_and, and_true, true_and, if_neg,
    not_true_eq_false, reduceCtorEq]

/-- C9 witness: the theorem applied to the lowercase letter 'u'. -/
theorem C9_letter_equals_hemisphere_witness :
    to_latlon 500000 5000000 32 (some 'u') none true
    = to_latlon 500000 5000000 32 none (some (decide ('N' ≤ Char.toUpper 'u'))) true :=
  C9_letter_equals_hemisphere 500000 5000000 32 true 'u'
    (by decide) (by decide) (by decide) (by decide)

/-- C10: `from_latlon` performs no range validation on force_zone_number: for
any integer Z and strict-domain latitude and longitude, the call succeeds and
the zone-number component of the result is Z. -/
theorem C10_force_zone_unchecked (lat lon : ℚ) (Z : ℤ)
    (h1 : -80 ≤ lat) (h2 : lat ≤ 84) (h3 : -180 ≤ lon) (h4 : lon ≤ 180) :
    resultZone (from_latlon lat lon (some Z) true) = some Z := by
  unfold from_latlon
  rw [if_neg (by push_neg; exact fun _ => ⟨h1, h2⟩),
      if_neg (by push_neg; exact fun _ => ⟨h3, h4⟩)]
  rfl

/-- C10 witness: the theorem applied with the out-of-range forced zone 99. -/
theorem C10_force_zone_unchecked_witness :
    resultZone (from_latlon 10 10 (some 99) true) = some 99 :=
  C10_force_zone_unchecked 10 10 99 (by norm_num) (by norm_num) (by norm_num) (by norm_num)

end UtmConv
